import Mathlib

/-!
# Verification of the kubeflow-tensorboards-operator charms

Shallow embedding of the reconciliation logic of the three charm revisions in
this repository:

* `src/charms/tensorboards-web-app/src/charm.py` (`TensorboardsWebApp`),
* `src/charms/tensorboard-controller/src/charm.py` (`Operator`, the sidecar
  controller charm),
* `src/src/charm.py` (the legacy pod-spec `Operator`).

External collaborators (the Kubernetes API client, the Pebble supervisor, the
Juju framework, the serialized-data-interface and gateway-info relation
libraries, OCI image fetching) are modelled as inputs: each event handler is a
pure function of a world record carrying the outcomes of those external calls,
and it returns the final unit status together with the trace of externally
observable mutations (resource applies, layer pushes, relation-data writes).
-/

/-- The discrete unit-status values of `ops.model`, each carrying its message.
`error` stands for any `ops` status class other than the four concrete ones the
charms use (for instance `ops.model.ErrorStatus`); it is needed to state what
`_log_and_set_status` does on a status type missing from its dispatch
dictionary. -/
inductive OpsStatus
  | active (msg : String)
  | waiting (msg : String)
  | blocked (msg : String)
  | maintenance (msg : String)
  | error (msg : String)
  deriving DecidableEq, Repr

/-- The message carried by a status (`status.message` in `ops`). -/
def OpsStatus.message : OpsStatus → String
  | .active m => m
  | .waiting m => m
  | .blocked m => m
  | .maintenance m => m
  | .error m => m

/-- `True` exactly on `WaitingStatus`. -/
def OpsStatus.isWaiting : OpsStatus → Bool
  | .waiting _ => true
  | _ => false

/-- `True` exactly on `BlockedStatus`. -/
def OpsStatus.isBlocked : OpsStatus → Bool
  | .blocked _ => true
  | _ => false

/-- Severity of a python `logging` call. -/
inductive LogSeverity
  | info
  | warning
  | errorSev
  deriving DecidableEq, Repr

/-- A `lightkube.ApiError`, reduced to the HTTP status code the charms branch
on (`error.status.code`). -/
structure ApiError where
  code : Nat
  deriving DecidableEq, Repr

/-- Exceptions that can escape a charm method: the chisme exception
`GenericCharmRuntimeError` (wrapping message), the chisme `ErrorWithStatus`
(carrying the status it was built from), or an uncaught `lightkube.ApiError`. -/
inductive CharmError
  | generic (msg : String)
  | errorWithStatus (status : OpsStatus)
  | apiError (e : ApiError)
  deriving DecidableEq, Repr

/-- Outcome of `serialized_data_interface.get_interfaces`: either the
interfaces dictionary (reduced to whether the `ingress` interface is populated)
or one of the two exceptions it raises. -/
inductive InterfacesResult
  | ok (ingress : Bool)
  | noVersionsListed (msg : String)
  | noCompatibleVersions (msg : String)
  deriving DecidableEq, Repr

/-- The payload sent over the `ingress` relation
(`interfaces["ingress"].send_data({...})`); the python dict keys are
`prefix`, `rewrite`, `service`, `port`. -/
structure IngressData where
  prefixPath : String
  rewrite : String
  service : String
  port : Nat
  deriving DecidableEq, Repr

namespace TensorboardsWebApp

/-- Model configuration (`self.model.config`) of the web-app charm: the two
keys `_env_vars` reads. `secure-cookies` is a boolean option passed through
python `str()`. -/
structure WebAppConfig where
  secureCookies : Bool
  backendMode : String
  deriving DecidableEq, Repr

/-- Python `str()` of a bool, as used in `str(config["secure-cookies"])`. -/
def pyStr (b : Bool) : String := if b then "True" else "False"

/-- `PORT = 5000` in `charm.py`. -/
def PORT : Nat := 5000

/-- The container name: first key of the `containers` section of
`metadata.yaml`. That file is not under `src/`; per the unit tests
(`APP_NAME = "tensorboards-web-app"`) the name is `tensorboards-web-app`. -/
def containerName : String := "tensorboards-web-app"

/-- `TensorboardsWebApp._env_vars`. -/
def env_vars (c : WebAppConfig) : List (String × String) :=
  [ ("APP_PREFIX", "/tensorboards"),
    ("APP_SECURE_COOKIES", pyStr c.secureCookies),
    ("BACKEND_MODE", c.backendMode),
    ("USERID_HEADER", "kubeflow-userid"),
    ("USERID_PREFIX", "") ]

/-- The `http` entry of a Pebble check. -/
structure HttpCheck where
  url : String
  deriving DecidableEq, Repr

/-- A Pebble check descriptor. `period`, `timeout` and `threshold` are
optional keys of the layer dictionary; `none` means the key is absent from the
layer (the supervisor then falls back to its own defaults). -/
structure CheckConfig where
  override : String
  period : Option String
  timeout : Option String
  threshold : Option Nat
  http : HttpCheck
  deriving DecidableEq, Repr

/-- A Pebble service descriptor, with the keys the charm writes. -/
structure ServiceConfig where
  override : String
  summary : String
  command : String
  startup : String
  environment : List (String × String)
  onCheckFailure : List (String × String)
  deriving DecidableEq, Repr

/-- An `ops.pebble.Layer`, as the dictionary the charm builds. -/
structure PebbleLayer where
  summary : String
  description : String
  services : List (String × ServiceConfig)
  checks : List (String × CheckConfig)
  deriving DecidableEq, Repr

/-- `TensorboardsWebApp._tensorboards_web_app_layer`. -/
def tensorboards_web_app_layer (c : WebAppConfig) : PebbleLayer :=
  { summary := "tensorboards-web-app layer"
    description := "Pebble config layer for tensorboards-web-app"
    services :=
      [ (containerName,
          { override := "merge"
            summary := "Entrypoint of tensorboards-web-app image"
            command := "gunicorn -w 3 --bind 0.0.0.0:5000 --access-logfile - entrypoint:app"
            startup := "enabled"
            environment := env_vars c
            onCheckFailure := [("tensorboards-web-app-up", "restart")] }) ]
    checks :=
      [ ("tensorboards-web-app-up",
          { override := "replace"
            period := some "30s"
            timeout := none
            threshold := none
            http := { url := "http://localhost:5000" } }) ] }

/-- Externally observable mutations performed by the web-app charm. -/
inductive WebAppAction
  | applyK8s
  | updateLayer (l : PebbleLayer)
  | sendIngressData (d : IngressData)
  | deleteK8s
  deriving DecidableEq, Repr

/-- World state seen by one web-app event: leadership, which ingress relations
exist, the outcomes of the external calls, and the model configuration. -/
structure WebAppWorld where
  leader : Bool
  ambientRelation : Bool
  sidecarRelation : Bool
  applyResult : Option ApiError
  containerReady : Bool
  interfaces : InterfacesResult
  deleteResult : Option ApiError
  config : WebAppConfig
  appName : String
  deriving DecidableEq, Repr

/-- `TensorboardsWebApp._check_leader`: raises
`ErrorWithStatus("Waiting for leadership", WaitingStatus)` for non-leaders. -/
def check_leader (w : WebAppWorld) : Except OpsStatus Unit :=
  if w.leader then .ok () else .error (.waiting "Waiting for leadership")

/-- Message of the `BlockedStatus` raised when both ingress relations exist. -/
def bothRelationsMsg : String :=
  "Cannot have both \x27istio-ingress-route\x27 and \x27ingress\x27 relations at the same time."

/-- Message of the `BlockedStatus` raised when neither ingress relation exists. -/
def noRelationsMsg : String :=
  "None of \x27istio-ingress-route\x27 or \x27ingress\x27 relations found."

/-- `TensorboardsWebApp._check_istio_relations`. -/
def check_istio_relations (w : WebAppWorld) : Except OpsStatus Unit :=
  if w.ambientRelation && w.sidecarRelation then
    .error (.blocked bothRelationsMsg)
  else if !w.ambientRelation && !w.sidecarRelation then
    .error (.blocked noRelationsMsg)
  else
    .ok ()

/-- In-flight charm state during one event: the current unit status and the
trace of mutations so far. -/
structure CharmState where
  status : OpsStatus
  actions : List WebAppAction
  deriving DecidableEq, Repr

/-- Result of a step that may raise `ErrorWithStatus`: either the updated
state, or the status carried by the raised exception together with the state
at raise time. -/
inductive StepResult
  | ok (s : CharmState)
  | err (status : OpsStatus) (s : CharmState)
  deriving DecidableEq, Repr

/-- `TensorboardsWebApp._apply_k8s_resources`: sets
`Maintenance("Applying K8S resources")`, attempts the apply, converts any
`ApiError` into `ErrorWithStatus("Applying K8S resources failed",
BlockedStatus)`, and on success sets `Maintenance("K8S resources applied")`. -/
def apply_k8s_resources (w : WebAppWorld) (s : CharmState) : StepResult :=
  let s1 : CharmState :=
    { status := .maintenance "Applying K8S resources"
      actions := s.actions ++ [.applyK8s] }
  match w.applyResult with
  | some _ => .err (.blocked "Applying K8S resources failed") s1
  | none => .ok { s1 with status := .maintenance "K8S resources applied" }

/-- Modelled from the spec: `charmed_kubeflow_chisme.pebble.update_layer` is an
external library call, not part of this repository. Per the spec, an
unreachable container reports `Maintenance("pod startup incomplete")`;
otherwise the freshly computed layer is pushed to the supervisor. -/
def update_layer (w : WebAppWorld) (l : PebbleLayer) (s : CharmState) : StepResult :=
  if w.containerReady then
    .ok { s with actions := s.actions ++ [.updateLayer l] }
  else
    .err (.maintenance "pod startup incomplete") s

/-- `TensorboardsWebApp._get_interfaces`: `NoVersionsListed` becomes
`ErrorWithStatus(error, WaitingStatus)`, `NoCompatibleVersions` becomes
`ErrorWithStatus(error, BlockedStatus)`. -/
def get_interfaces (w : WebAppWorld) : Except OpsStatus Bool :=
  match w.interfaces with
  | .ok ingress => .ok ingress
  | .noVersionsListed msg => .error (.waiting msg)
  | .noCompatibleVersions msg => .error (.blocked msg)

/-- `TensorboardsWebApp._configure_sidecar_mesh`: sends the ingress payload
when `interfaces["ingress"]` is truthy. -/
def configure_sidecar_mesh (w : WebAppWorld) (ingress : Bool) : List WebAppAction :=
  if ingress then
    [ .sendIngressData
        { prefixPath := "/tensorboards", rewrite := "/", service := w.appName,
          port := PORT } ]
  else []

/-- Final outcome of one event: the unit status at the end of the event and
the trace of mutations performed during it. -/
structure EventResult where
  status : OpsStatus
  actions : List WebAppAction
  deriving DecidableEq, Repr

/-- `TensorboardsWebApp._on_event`: runs `_check_leader`,
`_check_istio_relations`, `_apply_k8s_resources`, `update_layer`,
`_get_interfaces`, `_configure_sidecar_mesh` in this order inside one `try`;
an `ErrorWithStatus` is caught and its status becomes the final status; on
success the final status is `ActiveStatus()`. -/
def on_event (w : WebAppWorld) : EventResult :=
  let s0 : CharmState := { status := .maintenance "", actions := [] }
  match check_leader w with
  | .error st => { status := st, actions := s0.actions }
  | .ok _ =>
    match check_istio_relations w with
    | .error st => { status := st, actions := s0.actions }
    | .ok _ =>
      match apply_k8s_resources w s0 with
      | .err st s => { status := st, actions := s.actions }
      | .ok s1 =>
        match update_layer w (tensorboards_web_app_layer w.config) s1 with
        | .err st s => { status := st, actions := s.actions }
        | .ok s2 =>
          match get_interfaces w with
          | .error st => { status := st, actions := s2.actions }
          | .ok ingress =>
            { status := .active ""
              actions := s2.actions ++ configure_sidecar_mesh w ingress }

/-- `TensorboardsWebApp._on_install`: applies the K8s resources with no
precondition check; an `ErrorWithStatus` from the apply is caught and its
status set; on success the last status set is the
`Maintenance("K8S resources applied")` from inside `_apply_k8s_resources`. -/
def on_install (w : WebAppWorld) : EventResult :=
  let s0 : CharmState := { status := .maintenance "", actions := [] }
  match apply_k8s_resources w s0 with
  | .err st s => { status := st, actions := s.actions }
  | .ok s => { status := s.status, actions := s.actions }

/-- Outcome of the remove handler, which can raise out of the charm. -/
structure RemoveResult where
  status : OpsStatus
  actions : List WebAppAction
  errorLogs : List String
  raised : Option CharmError
  deriving DecidableEq, Repr

/-- `TensorboardsWebApp._on_remove`: sets
`Maintenance("Removing K8S resources")`, deletes the resource set; an
`ApiError` with code 404 is silently ignored, any other code is logged at
error severity and re-raised as `GenericCharmRuntimeError`. -/
def on_remove (w : WebAppWorld) : RemoveResult :=
  let st : OpsStatus := .maintenance "Removing K8S resources"
  match w.deleteResult with
  | none => { status := st, actions := [.deleteK8s], errorLogs := [], raised := none }
  | some e =>
    if e.code ≠ 404 then
      { status := st, actions := [.deleteK8s],
        errorLogs := ["Removing K8S resources failed with error"],
        raised := some (.generic "Removing K8s resources failed") }
    else
      { status := st, actions := [.deleteK8s], errorLogs := [], raised := none }

/-- Result of `TensorboardsWebApp._log_and_set_status`: the unit status after
the call, what was logged, and whether the type-dispatch dictionary raised
`KeyError`. -/
structure LogSetResult where
  setStatus : OpsStatus
  logged : Option (LogSeverity × String)
  keyError : Bool
  deriving DecidableEq, Repr

/-- The `log_destination_map` dictionary of `_log_and_set_status`: it has
entries for exactly `ActiveStatus`, `BlockedStatus`, `MaintenanceStatus` and
`WaitingStatus`; looking up any other status type raises `KeyError`
(modelled as `none`). -/
def log_destination_map : OpsStatus → Option LogSeverity
  | .active _ => some .info
  | .blocked _ => some .warning
  | .maintenance _ => some .info
  | .waiting _ => some .info
  | .error _ => none

/-- `TensorboardsWebApp._log_and_set_status`: first assigns
`self.unit.status = status`, then dispatches on `type(status)` through
`log_destination_map` to log `status.message`. -/
def log_and_set_status (status : OpsStatus) : LogSetResult :=
  match log_destination_map status with
  | some sev => { setStatus := status, logged := some (sev, status.message), keyError := false }
  | none => { setStatus := status, logged := none, keyError := true }

end TensorboardsWebApp

/-- Decidable equality for `Except`, needed so that worlds carrying an
`Except`-valued field keep decidable equality. -/
instance {ε α : Type} [DecidableEq ε] [DecidableEq α] : DecidableEq (Except ε α) :=
  fun x y =>
    match x, y with
    | .ok a, .ok b =>
      if h : a = b then .isTrue (by rw [h]) else .isFalse (by simp [h])
    | .error a, .error b =>
      if h : a = b then .isTrue (by rw [h]) else .isFalse (by simp [h])
    | .ok _, .error _ => .isFalse (by simp)
    | .error _, .ok _ => .isFalse (by simp)

namespace Controller

/-- Data carried by the `gateway-info` relation
(`{gateway_namespace, gateway_name}`). -/
structure GatewayData where
  gatewayNamespace : String
  gatewayName : String
  deriving DecidableEq, Repr

/-- Externally observable mutations performed by the controller charm
(`src/charms/tensorboard-controller/src/charm.py`). `setPodSpec` records the
`envConfig` of the deployment container and the container port;
`applyK8s`/`applyCrd` record one call of the corresponding resource handler method
`apply`, with its `force` argument. -/
inductive ControllerAction
  | setPodSpec (env : List (String × String)) (port : Nat)
  | applyK8s (force : Bool)
  | applyCrd (force : Bool)
  deriving DecidableEq, Repr

/-- World state seen by one controller event: leadership, the outcome of the
OCI image fetch (`CheckFailed` already converted to the status it carries),
the `gateway-info` relation data (`none` models `GatewayRelationError`), the
configured port, and the outcomes the cluster would return for each apply
call (`none` = success, `some e` = `ApiError e`). -/
structure ControllerWorld where
  leader : Bool
  imageFetch : Except OpsStatus String
  gatewayData : Option GatewayData
  port : Nat
  k8sApplyFirst : Option ApiError
  k8sApplyForced : Option ApiError
  crdApplyFirst : Option ApiError
  crdApplyForced : Option ApiError
  deriving DecidableEq, Repr

/-- `Operator._check_leader`: raises
`ErrorWithStatus("Waiting for leadership", WaitingStatus)` for non-leaders.
Note this is the chisme `ErrorWithStatus`, not the locally defined `CheckFailed`. -/
def check_leader (w : ControllerWorld) : Except CharmError Unit :=
  if w.leader then .ok ()
  else .error (.errorWithStatus (.waiting "Waiting for leadership"))

/-- `Operator._check_and_report_k8s_conflict`: true exactly when the
`ApiError` status code is 409 (and then a warning is logged). -/
def check_and_report_k8s_conflict (e : ApiError) : Bool :=
  e.code == 409

/-- Outcome of `Operator._apply_k8s_resources`: the exception that escaped (if
any) and the trace of apply calls. The intermediate
`MaintenanceStatus` writes of the method are not modelled; no claim depends on
them and later writes by every caller would overwrite them. -/
structure ApplyOutcome where
  err : Option CharmError
  actions : List ControllerAction
  deriving DecidableEq, Repr

/-- Second half of `Operator._apply_k8s_resources`: the
`crd_resource_handler.apply()` block, mirroring the k8s block. `acc` is the
trace accumulated by the first block. -/
def apply_crd_block (w : ControllerWorld) (force_conflicts : Bool)
    (acc : List ControllerAction) : ApplyOutcome :=
  match w.crdApplyFirst with
  | none => { err := none, actions := acc ++ [.applyCrd false] }
  | some e =>
    if check_and_report_k8s_conflict e && force_conflicts then
      match w.crdApplyForced with
      | none => { err := none, actions := acc ++ [.applyCrd false, .applyCrd true] }
      | some e2 =>
        { err := some (.apiError e2),
          actions := acc ++ [.applyCrd false, .applyCrd true] }
    else
      { err := some (.generic "CRD resources creation failed"),
        actions := acc ++ [.applyCrd false] }

/-- `Operator._apply_k8s_resources(force_conflicts)`: applies through
`k8s_resource_handler`; on `ApiError`, if the code is 409 and
`force_conflicts` is true, re-applies once with `force=force_conflicts`
(a failure of that forced apply propagates as a bare `ApiError`); otherwise
raises `GenericCharmRuntimeError`. Then the same for `crd_resource_handler`. -/
def controller_apply_k8s_resources (w : ControllerWorld)
    (force_conflicts : Bool) : ApplyOutcome :=
  match w.k8sApplyFirst with
  | none => apply_crd_block w force_conflicts [.applyK8s false]
  | some e =>
    if check_and_report_k8s_conflict e && force_conflicts then
      match w.k8sApplyForced with
      | none => apply_crd_block w force_conflicts [.applyK8s false, .applyK8s true]
      | some e2 =>
        { err := some (.apiError e2),
          actions := [.applyK8s false, .applyK8s true] }
    else
      { err := some (.generic "K8s resources creation failed"),
        actions := [.applyK8s false] }

/-- `Operator._get_gateway_data`: converts `GatewayRelationError` into
`ErrorWithStatus("Waiting for gateway info relation", WaitingStatus)`. -/
def get_gateway_data (w : ControllerWorld) : Except OpsStatus (String × String) :=
  match w.gatewayData with
  | none => .error (.waiting "Waiting for gateway info relation")
  | some gw => .ok (gw.gatewayNamespace, gw.gatewayName)

/-- `Operator.service_environment`. -/
def service_environment (w : ControllerWorld) :
    Except OpsStatus (List (String × String)) :=
  match get_gateway_data w with
  | .error st => .error st
  | .ok (ns, name) =>
    .ok [ ("ISTIO_GATEWAY", ns ++ "/" ++ name),
          ("TENSORBOARD_IMAGE", "tensorflow/tensorflow:2.1.0") ]

/-- Outcome of one dispatch of `Operator.main`: the unit status at the end of
the event (`st0` is the status the unit had before the event; `main` leaves it
unchanged when it raises before assigning one), the exception that escaped the
handler uncaught (if any), and the trace of mutations. -/
structure MainResult where
  status : OpsStatus
  uncaught : Option CharmError
  actions : List ControllerAction
  deriving DecidableEq, Repr

/-- `Operator.main`: runs `_check_leader` and `_check_image_details` inside a
`try` whose `except` clause catches only `CheckFailed` — the
`ErrorWithStatus` raised by `_check_leader` is therefore not caught and
escapes the handler. A `GatewayRelationError` sets
`Waiting("Waiting for gateway info relation")`; otherwise the pod spec is set
(with `ISTIO_GATEWAY` joined from the gateway data) and the final status is
`ActiveStatus()`. -/
def main (w : ControllerWorld) (st0 : OpsStatus) : MainResult :=
  match check_leader w with
  | .error e => { status := st0, uncaught := some e, actions := [] }
  | .ok _ =>
    match w.imageFetch with
    | .error st => { status := st, uncaught := none, actions := [] }
    | .ok _ =>
      match w.gatewayData with
      | none =>
        { status := .waiting "Waiting for gateway info relation",
          uncaught := none, actions := [] }
      | some gw =>
        { status := .active ""
          uncaught := none
          actions :=
            [ .setPodSpec
                [ ("ISTIO_GATEWAY",
                    gw.gatewayNamespace ++ "/" ++ gw.gatewayName),
                  ("TENSORBOARD_IMAGE", "tensorflow/tensorflow:2.1.0") ]
                w.port ] }

end Controller

namespace Legacy

/-- Events the legacy pod-spec charm (`src/src/charm.py`) can observe. -/
inductive LegacyEvent
  | install
  | upgradeCharm
  | configChanged
  | ingressRelationChanged
  deriving DecidableEq, Repr

/-- The two handler methods of the legacy charm. -/
inductive LegacyHandler
  | mainHandler
  | configureMesh
  deriving DecidableEq, Repr

/-- Externally observable mutations of the legacy charm. -/
inductive LegacyAction
  | setPodSpec (env : List (String × String)) (port : Nat)
  | sendIngressData (d : IngressData)
  deriving DecidableEq, Repr

/-- World state of the legacy charm process: leadership at construction time,
the `get_interfaces` outcome, the OCI image fetch outcome, the configured
port and application name. -/
structure LegacyWorld where
  leader : Bool
  interfaces : InterfacesResult
  imageFetch : Except OpsStatus String
  port : Nat
  appName : String
  deriving DecidableEq, Repr

/-- Result of `Operator.__init__`: the unit status it leaves and the list of
`(event, handler)` observers it registered. -/
structure InitResult where
  status : OpsStatus
  observers : List (LegacyEvent × LegacyHandler)
  deriving DecidableEq, Repr

/-- `Operator.__init__` of the legacy charm: a non-leader sets
`WaitingStatus("Waiting for leadership")` and returns before any
`framework.observe` call; `get_interfaces` failures likewise return before
registration; otherwise the status is `ActiveStatus()` and the four observers
are registered. -/
def legacy_init (w : LegacyWorld) : InitResult :=
  if !w.leader then
    { status := .waiting "Waiting for leadership", observers := [] }
  else
    match w.interfaces with
    | .noVersionsListed msg => { status := .waiting msg, observers := [] }
    | .noCompatibleVersions msg => { status := .blocked msg, observers := [] }
    | .ok _ =>
      { status := .active ""
        observers :=
          [ (.install, .mainHandler),
            (.upgradeCharm, .mainHandler),
            (.configChanged, .mainHandler),
            (.ingressRelationChanged, .configureMesh) ] }

/-- `Operator.main` of the legacy charm: on image fetch failure sets the
carried status and returns; otherwise sets the pod spec and `ActiveStatus()`. -/
def legacy_main (w : LegacyWorld) : List LegacyAction :=
  match w.imageFetch with
  | .error _ => []
  | .ok _ =>
    [ .setPodSpec
        [ ("USERID_HEADER", "kubeflow-userid"),
          ("USERID_PREFIX", ""),
          ("APP_PREFIX", "/tensorboards") ]
        w.port ]

/-- `Operator.configure_mesh` of the legacy charm: sends the ingress payload
when `interfaces["ingress"]` is truthy. -/
def legacy_configure_mesh (w : LegacyWorld) : List LegacyAction :=
  match w.interfaces with
  | .ok true =>
    [ .sendIngressData
        { prefixPath := "/tensorboards", rewrite := "/tensorboards",
          service := w.appName, port := w.port } ]
  | _ => []

/-- Run one legacy handler in world `w`, returning its mutations. -/
def run_handler (h : LegacyHandler) (w : LegacyWorld) : List LegacyAction :=
  match h with
  | .mainHandler => legacy_main w
  | .configureMesh => legacy_configure_mesh w

/-- The handlers the framework invokes when event `e` is dispatched, given
the observers registered at construction time. -/
def dispatched_handlers (ini : InitResult) (e : LegacyEvent) : List LegacyHandler :=
  (ini.observers.filter (fun p => p.1 == e)).map (fun p => p.2)

/-- All mutations performed when event `e` is dispatched in world `w2`
(possibly a later world in the same process, e.g. after leadership was
acquired), given the observers from construction time. -/
def dispatch_actions (ini : InitResult) (w2 : LegacyWorld) (e : LegacyEvent) :
    List LegacyAction :=
  (dispatched_handlers ini e).flatMap (fun h => run_handler h w2)

end Legacy

section ConcreteWorlds

open TensorboardsWebApp Controller Legacy

/-- A non-leader web-app world with one ingress relation and a healthy
cluster. -/
def wNonLeader : WebAppWorld :=
  { leader := false, ambientRelation := true, sidecarRelation := false,
    applyResult := none, containerReady := true, interfaces := .ok true,
    deleteResult := none,
    config := { secureCookies := false, backendMode := "kubeflow" },
    appName := "tensorboards-web-app" }

/-- A non-leader controller world whose image fetch would succeed. -/
def cwNonLeader : ControllerWorld :=
  { leader := false, imageFetch := .ok "registry/image", gatewayData := none,
    port := 9443, k8sApplyFirst := none, k8sApplyForced := none,
    crdApplyFirst := none, crdApplyForced := none }

/-- A leader controller world whose first k8s apply answers HTTP 409. -/
def cwConflict409 : ControllerWorld :=
  { leader := true, imageFetch := .ok "registry/image", gatewayData := none,
    port := 9443, k8sApplyFirst := some { code := 409 },
    k8sApplyForced := none, crdApplyFirst := none, crdApplyForced := none }

/-- A leader web-app world with one relation, a successful apply and an
unreachable container. -/
def wUnreachable : WebAppWorld :=
  { leader := true, ambientRelation := false, sidecarRelation := true,
    applyResult := none, containerReady := false, interfaces := .ok true,
    deleteResult := none,
    config := { secureCookies := false, backendMode := "kubeflow" },
    appName := "tensorboards-web-app" }

/-- A leader web-app world whose `ingress` relation lists only incompatible
versions. -/
def wNoCompatible : WebAppWorld :=
  { leader := true, ambientRelation := false, sidecarRelation := true,
    applyResult := none, containerReady := true,
    interfaces := .noCompatibleVersions "no compatible versions",
    deleteResult := none,
    config := { secureCookies := false, backendMode := "kubeflow" },
    appName := "tensorboards-web-app" }

/-- A leader web-app world whose `ingress` relation lists no versions yet. -/
def wNoVersions : WebAppWorld :=
  { leader := true, ambientRelation := false, sidecarRelation := true,
    applyResult := none, containerReady := true,
    interfaces := .noVersionsListed "List of versions not found for apps: istio-pilot",
    deleteResult := none,
    config := { secureCookies := false, backendMode := "kubeflow" },
    appName := "tensorboards-web-app" }

/-- A leader controller world whose `gateway-info` relation carries no data. -/
def cwNoGateway : ControllerWorld :=
  { leader := true, imageFetch := .ok "registry/image", gatewayData := none,
    port := 9443, k8sApplyFirst := none, k8sApplyForced := none,
    crdApplyFirst := none, crdApplyForced := none }

/-- A non-leader web-app world in which both ingress relations exist. -/
def wBothNonLeader : WebAppWorld :=
  { leader := false, ambientRelation := true, sidecarRelation := true,
    applyResult := none, containerReady := true, interfaces := .ok true,
    deleteResult := none,
    config := { secureCookies := false, backendMode := "kubeflow" },
    appName := "tensorboards-web-app" }

/-- A leader web-app world in which both ingress relations exist. -/
def wBothLeader : WebAppWorld :=
  { leader := true, ambientRelation := true, sidecarRelation := true,
    applyResult := none, containerReady := true, interfaces := .ok true,
    deleteResult := none,
    config := { secureCookies := false, backendMode := "kubeflow" },
    appName := "tensorboards-web-app" }

/-- A leader controller world with the scenario-B gateway data. -/
def cwScenarioB : ControllerWorld :=
  { leader := true, imageFetch := .ok "registry/image",
    gatewayData := some { gatewayNamespace := "kubeflow",
                          gatewayName := "kubeflow-gateway" },
    port := 9443, k8sApplyFirst := none, k8sApplyForced := none,
    crdApplyFirst := none, crdApplyForced := none }

/-- A web-app world in which the delete answers HTTP 404 (resources were
never applied). -/
def wDelete404 : WebAppWorld :=
  { leader := true, ambientRelation := false, sidecarRelation := true,
    applyResult := none, containerReady := true, interfaces := .ok true,
    deleteResult := some { code := 404 },
    config := { secureCookies := false, backendMode := "kubeflow" },
    appName := "tensorboards-web-app" }

/-- A non-leader legacy world. -/
def lwNonLeader : LegacyWorld :=
  { leader := false, interfaces := .ok true, imageFetch := .ok "registry/image",
    port := 5000, appName := "tensorboards-web-app" }

/-- A later legacy world in the same process, after leadership was acquired. -/
def lwLaterLeader : LegacyWorld :=
  { leader := true, interfaces := .ok true, imageFetch := .ok "registry/image",
    port := 5000, appName := "tensorboards-web-app" }

end ConcreteWorlds

/-! ## Helper lemmas -/

/-- The CRD block of `_apply_k8s_resources` only ever appends one normal CRD
apply, optionally followed by one forced CRD apply. -/
theorem apply_crd_block_actions_shape (w : Controller.ControllerWorld)
    (fc : Bool) (acc : List Controller.ControllerAction) :
    (Controller.apply_crd_block w fc acc).actions = acc ++ [.applyCrd false] ∨
    (Controller.apply_crd_block w fc acc).actions =
      acc ++ [.applyCrd false, .applyCrd true] := by
  rcases hc : w.crdApplyFirst with _ | e
  · simp [Controller.apply_crd_block, hc]
  · by_cases h : (Controller.check_and_report_k8s_conflict e && fc) = true
    · rcases hcf : w.crdApplyForced with _ | e2 <;>
        simp [Controller.apply_crd_block, hc, h, hcf]
    · simp [Controller.apply_crd_block, hc, h]

/-! ## Claims -/

open TensorboardsWebApp Controller Legacy in
/-- Claim C1, counterexample. The claim states that on every entry point of
either charm a non-leader unit applies no Kubernetes resource and ends with
exactly `WaitingStatus("Waiting for leadership")`. It is false twice over: the
web-app install handler applies the resources and ends in
`Maintenance("K8S resources applied")` even when the unit is not the leader,
and the controller `main` never sets the waiting status for a non-leader —
the `ErrorWithStatus` raised by `_check_leader` escapes uncaught because
`main` only catches `CheckFailed`. -/
theorem c1_counterexample :
    (TensorboardsWebApp.on_install wNonLeader).actions = [.applyK8s] ∧
    (TensorboardsWebApp.on_install wNonLeader).status =
      .maintenance "K8S resources applied" ∧
    (Controller.main cwNonLeader (.active "")).status ≠
      .waiting "Waiting for leadership" ∧
    (Controller.main cwNonLeader (.active "")).uncaught =
      some (.errorWithStatus (.waiting "Waiting for leadership")) := by
  refine ⟨rfl, rfl, ?_, rfl⟩
  decide

/-- Claim C1, amended: for every event routed through the web app
`_on_event`, a non-leader unit performs no mutation and ends with exactly
`WaitingStatus("Waiting for leadership")`; the web app install handler
applies the K8s resources regardless of leadership; and in the controller
`main` a non-leader performs no mutation but the handler ends with an uncaught
`ErrorWithStatus` (carrying the waiting status) instead of setting it, leaving
the unit status unchanged. -/
theorem c1_amended :
    (∀ w : TensorboardsWebApp.WebAppWorld, w.leader = false →
        TensorboardsWebApp.on_event w =
          { status := .waiting "Waiting for leadership", actions := [] }) ∧
    (∀ w : TensorboardsWebApp.WebAppWorld,
        (TensorboardsWebApp.on_install w).actions = [.applyK8s]) ∧
    (∀ (cw : Controller.ControllerWorld) (st0 : OpsStatus), cw.leader = false →
        Controller.main cw st0 =
          { status := st0,
            uncaught := some (.errorWithStatus (.waiting "Waiting for leadership")),
            actions := [] }) := by
  refine ⟨?_, ?_, ?_⟩
  · intro w h
    simp [TensorboardsWebApp.on_event, TensorboardsWebApp.check_leader, h]
  · intro w
    cases h : w.applyResult <;>
      simp [TensorboardsWebApp.on_install, TensorboardsWebApp.apply_k8s_resources, h]
  · intro cw st0 h
    simp [Controller.main, Controller.check_leader, h]

/-- Claim C1, witness: the amended theorem evaluated at the concrete
non-leader worlds. -/
theorem c1_witness :
    TensorboardsWebApp.on_event wNonLeader =
      { status := .waiting "Waiting for leadership", actions := [] } ∧
    (TensorboardsWebApp.on_install wNonLeader).actions = [.applyK8s] ∧
    Controller.main cwNonLeader (.active "") =
      { status := .active "",
        uncaught := some (.errorWithStatus (.waiting "Waiting for leadership")),
        actions := [] } :=
  ⟨c1_amended.1 wNonLeader rfl, c1_amended.2.1 wNonLeader,
    c1_amended.2.2 cwNonLeader (.active "") rfl⟩

/-- Claim C2: in `Operator._apply_k8s_resources(force_conflicts)`, a 409 from
a normal apply with `force_conflicts = false` raises
`GenericCharmRuntimeError` with no retry; with `force_conflicts = true` the
apply is retried exactly once with forced ownership transfer and never more
than once; any non-409 `ApiError` raises the fatal error regardless of
`force_conflicts`. -/
theorem c2_apply_conflict_policy (w : Controller.ControllerWorld) (fc : Bool) :
    ((Controller.controller_apply_k8s_resources w fc).actions.count
        (.applyK8s true) ≤ 1 ∧
      (Controller.controller_apply_k8s_resources w fc).actions.count
        (.applyCrd true) ≤ 1) ∧
    (∀ e : ApiError, w.k8sApplyFirst = some e →
      (e.code = 409 → fc = false →
        Controller.controller_apply_k8s_resources w fc =
          { err := some (.generic "K8s resources creation failed"),
            actions := [.applyK8s false] }) ∧
      (e.code ≠ 409 →
        Controller.controller_apply_k8s_resources w fc =
          { err := some (.generic "K8s resources creation failed"),
            actions := [.applyK8s false] }) ∧
      (e.code = 409 → fc = true →
        (Controller.controller_apply_k8s_resources w fc).actions.take 2 =
          [.applyK8s false, .applyK8s true])) ∧
    (w.k8sApplyFirst = none → ∀ e : ApiError, w.crdApplyFirst = some e →
      (e.code = 409 → fc = false →
        Controller.controller_apply_k8s_resources w fc =
          { err := some (.generic "CRD resources creation failed"),
            actions := [.applyK8s false, .applyCrd false] }) ∧
      (e.code ≠ 409 →
        Controller.controller_apply_k8s_resources w fc =
          { err := some (.generic "CRD resources creation failed"),
            actions := [.applyK8s false, .applyCrd false] }) ∧
      (e.code = 409 → fc = true →
        (Controller.controller_apply_k8s_resources w fc).actions =
          [.applyK8s false, .applyCrd false, .applyCrd true])) := by
  refine ⟨?_, ?_, ?_⟩
  · rcases hk : w.k8sApplyFirst with _ | e
    · simp only [Controller.controller_apply_k8s_resources, hk]
      rcases apply_crd_block_actions_shape w fc [.applyK8s false] with h | h <;>
        rw [h] <;> exact ⟨by decide, by decide⟩
    · by_cases hc : (Controller.check_and_report_k8s_conflict e && fc) = true
      · rcases hkf : w.k8sApplyForced with _ | e2
        · simp only [Controller.controller_apply_k8s_resources, hk, if_pos hc,
            hkf]
          rcases apply_crd_block_actions_shape w fc
              [.applyK8s false, .applyK8s true] with h | h <;>
            rw [h] <;> exact ⟨by decide, by decide⟩
        · simp only [Controller.controller_apply_k8s_resources, hk, if_pos hc,
            hkf]
          exact ⟨by decide, by decide⟩
      · simp only [Controller.controller_apply_k8s_resources, hk, if_neg hc]
        exact ⟨by decide, by decide⟩
  · rintro e he
    refine ⟨?_, ?_, ?_⟩
    · rintro h409 rfl
      simp [Controller.controller_apply_k8s_resources, he,
        Controller.check_and_report_k8s_conflict]
    · intro hne
      have hb : (e.code == 409) = false := by simpa using hne
      simp [Controller.controller_apply_k8s_resources, he,
        Controller.check_and_report_k8s_conflict, hb]
    · rintro h409 rfl
      have hc : (Controller.check_and_report_k8s_conflict e && true) = true := by
        simp [Controller.check_and_report_k8s_conflict, h409]
      rcases hkf : w.k8sApplyForced with _ | e2
      · simp only [Controller.controller_apply_k8s_resources, he, if_pos hc,
          hkf]
        rcases apply_crd_block_actions_shape w true
            [.applyK8s false, .applyK8s true] with h | h <;> rw [h] <;> rfl
      · simp only [Controller.controller_apply_k8s_resources, he, if_pos hc,
          hkf]
        rfl
  · rintro hk e hce
    refine ⟨?_, ?_, ?_⟩
    · rintro h409 rfl
      simp [Controller.controller_apply_k8s_resources, hk,
        Controller.apply_crd_block, hce,
        Controller.check_and_report_k8s_conflict]
    · intro hne
      have hb : (e.code == 409) = false := by simpa using hne
      simp [Controller.controller_apply_k8s_resources, hk,
        Controller.apply_crd_block, hce,
        Controller.check_and_report_k8s_conflict, hb]
    · rintro h409 rfl
      rcases hcf : w.crdApplyForced with _ | e2 <;>
        simp [Controller.controller_apply_k8s_resources, hk,
          Controller.apply_crd_block, hce, hcf,
          Controller.check_and_report_k8s_conflict, h409]

/-- Claim C2, witness: a 409 on the first apply with `force_conflicts =
false` surfaces the fatal error after a single apply attempt. -/
theorem c2_witness :
    Controller.controller_apply_k8s_resources cwConflict409 false =
      { err := some (.generic "K8s resources creation failed"),
        actions := [.applyK8s false] } :=
  ((c2_apply_conflict_policy cwConflict409 false).2.1 { code := 409 } rfl).1
    rfl rfl

/-- Claim C3, counterexample. The claim states that container connectivity is
checked before relation data is examined and before any Kubernetes resource
mutation is attempted. In `_on_event` the K8s resource apply runs before the
layer update (where connectivity is checked): in a world whose container is
unreachable the event still performs the apply, so a resource mutation was
attempted before the connectivity check. -/
theorem c3_counterexample :
    (TensorboardsWebApp.on_event wUnreachable).status =
      .maintenance "pod startup incomplete" ∧
    (TensorboardsWebApp.on_event wUnreachable).actions = [.applyK8s] := by
  constructor <;> rfl

/-- Claim C3, amended: in the web app `_on_event` the steps run in the
fixed order leadership check, ingress-relation exclusivity check, K8s
resource apply, container/layer update, relation version data; the first
failure sets the status and short-circuits the rest. An unreachable container
yields `Maintenance("pod startup incomplete")`, but only after the K8s
resource apply has already been attempted, and the exclusivity check (not
connectivity) is what runs before relation data is consulted. -/
theorem c3_event_step_order (w : TensorboardsWebApp.WebAppWorld)
    (h1 : w.leader = true) (h2 : w.ambientRelation ≠ w.sidecarRelation) :
    (∀ e : ApiError, w.applyResult = some e →
      TensorboardsWebApp.on_event w =
        { status := .blocked "Applying K8S resources failed",
          actions := [.applyK8s] }) ∧
    (w.applyResult = none → w.containerReady = false →
      TensorboardsWebApp.on_event w =
        { status := .maintenance "pod startup incomplete",
          actions := [.applyK8s] }) ∧
    (∀ m : String, w.applyResult = none → w.containerReady = true →
      w.interfaces = .noVersionsListed m →
      TensorboardsWebApp.on_event w =
        { status := .waiting m,
          actions :=
            [.applyK8s,
              .updateLayer (TensorboardsWebApp.tensorboards_web_app_layer
                w.config)] }) := by
  have hrel : TensorboardsWebApp.check_istio_relations w = .ok () := by
    cases hA : w.ambientRelation <;> cases hS : w.sidecarRelation
    · exact absurd (hA.trans hS.symm) h2
    · simp [TensorboardsWebApp.check_istio_relations, hA, hS]
    · simp [TensorboardsWebApp.check_istio_relations, hA, hS]
    · exact absurd (hA.trans hS.symm) h2
  refine ⟨?_, ?_, ?_⟩
  · intro e he
    simp [TensorboardsWebApp.on_event, TensorboardsWebApp.check_leader, h1,
      hrel, TensorboardsWebApp.apply_k8s_resources, he]
  · intro ha hc
    simp [TensorboardsWebApp.on_event, TensorboardsWebApp.check_leader, h1,
      hrel, TensorboardsWebApp.apply_k8s_resources, ha,
      TensorboardsWebApp.update_layer, hc]
  · intro m ha hc hi
    simp [TensorboardsWebApp.on_event, TensorboardsWebApp.check_leader, h1,
      hrel, TensorboardsWebApp.apply_k8s_resources, ha,
      TensorboardsWebApp.update_layer, hc,
      TensorboardsWebApp.get_interfaces, hi]

/-- Claim C3, witness: the amended ordering evaluated at the concrete
unreachable-container world. -/
theorem c3_witness :
    TensorboardsWebApp.on_event wUnreachable =
      { status := .maintenance "pod startup incomplete",
        actions := [.applyK8s] } :=
  (c3_event_step_order wUnreachable rfl (by decide)).2.1 rfl rfl

/-- Claim C4, counterexample. The claim states that whenever a required
relation exists but its data lacks the expected keys or versions, the status
is `Waiting(...)`. But when the listed versions of the relation lack the expected
(compatible) version, `_get_interfaces` maps `NoCompatibleVersions` to
`BlockedStatus`, not `WaitingStatus`. -/
theorem c4_counterexample :
    (TensorboardsWebApp.on_event wNoCompatible).status =
      .blocked "no compatible versions" ∧
    (TensorboardsWebApp.on_event wNoCompatible).status.isWaiting = false := by
  constructor <;> rfl

/-- Claim C4, amended: if a required relation exists but its data lacks the
expected keys (controller gateway data) or has no versions listed yet
(web app), the status is `Waiting(...)` and the dependent mutation (pod spec
with gateway environment, or the ingress relation payload) is not performed;
if versions are listed but the expected version is not among them, the status
is `Blocked(...)` instead, still with no dependent mutation. -/
theorem c4_missing_relation_data :
    (∀ (w : TensorboardsWebApp.WebAppWorld) (m : String), w.leader = true →
      w.ambientRelation ≠ w.sidecarRelation → w.applyResult = none →
      w.containerReady = true → w.interfaces = .noVersionsListed m →
      TensorboardsWebApp.on_event w =
        { status := .waiting m,
          actions :=
            [.applyK8s,
              .updateLayer (TensorboardsWebApp.tensorboards_web_app_layer
                w.config)] }) ∧
    (∀ (w : TensorboardsWebApp.WebAppWorld) (m : String), w.leader = true →
      w.ambientRelation ≠ w.sidecarRelation → w.applyResult = none →
      w.containerReady = true → w.interfaces = .noCompatibleVersions m →
      TensorboardsWebApp.on_event w =
        { status := .blocked m,
          actions :=
            [.applyK8s,
              .updateLayer (TensorboardsWebApp.tensorboards_web_app_layer
                w.config)] }) ∧
    (∀ (cw : Controller.ControllerWorld) (st0 : OpsStatus) (d : String),
      cw.leader = true → cw.imageFetch = .ok d → cw.gatewayData = none →
      Controller.main cw st0 =
        { status := .waiting "Waiting for gateway info relation",
          uncaught := none, actions := [] }) := by
  refine ⟨?_, ?_, ?_⟩
  · intro w m h1 h2 ha hc hi
    have hrel : TensorboardsWebApp.check_istio_relations w = .ok () := by
      cases hA : w.ambientRelation <;> cases hS : w.sidecarRelation
      · exact absurd (hA.trans hS.symm) h2
      · simp [TensorboardsWebApp.check_istio_relations, hA, hS]
      · simp [TensorboardsWebApp.check_istio_relations, hA, hS]
      · exact absurd (hA.trans hS.symm) h2
    simp [TensorboardsWebApp.on_event, TensorboardsWebApp.check_leader, h1,
      hrel, TensorboardsWebApp.apply_k8s_resources, ha,
      TensorboardsWebApp.update_layer, hc,
      TensorboardsWebApp.get_interfaces, hi]
  · intro w m h1 h2 ha hc hi
    have hrel : TensorboardsWebApp.check_istio_relations w = .ok () := by
      cases hA : w.ambientRelation <;> cases hS : w.sidecarRelation
      · exact absurd (hA.trans hS.symm) h2
      · simp [TensorboardsWebApp.check_istio_relations, hA, hS]
      · simp [TensorboardsWebApp.check_istio_relations, hA, hS]
      · exact absurd (hA.trans hS.symm) h2
    simp [TensorboardsWebApp.on_event, TensorboardsWebApp.check_leader, h1,
      hrel, TensorboardsWebApp.apply_k8s_resources, ha,
      TensorboardsWebApp.update_layer, hc,
      TensorboardsWebApp.get_interfaces, hi]
  · intro cw st0 d h1 hi hg
    simp [Controller.main, Controller.check_leader, h1, hi, hg]

/-- Claim C4, witness: the amended behaviour evaluated at the concrete
worlds with unlisted versions, incompatible versions, and missing gateway
data. -/
theorem c4_witness :
    TensorboardsWebApp.on_event wNoVersions =
      { status := .waiting "List of versions not found for apps: istio-pilot",
        actions :=
          [.applyK8s,
            .updateLayer (TensorboardsWebApp.tensorboards_web_app_layer
              wNoVersions.config)] } ∧
    TensorboardsWebApp.on_event wNoCompatible =
      { status := .blocked "no compatible versions",
        actions :=
          [.applyK8s,
            .updateLayer (TensorboardsWebApp.tensorboards_web_app_layer
              wNoCompatible.config)] } ∧
    Controller.main cwNoGateway (.active "") =
      { status := .waiting "Waiting for gateway info relation",
        uncaught := none, actions := [] } :=
  ⟨c4_missing_relation_data.1 wNoVersions _ rfl (by decide) rfl rfl rfl,
    c4_missing_relation_data.2.1 wNoCompatible _ rfl (by decide) rfl rfl rfl,
    c4_missing_relation_data.2.2 cwNoGateway (.active "") "registry/image"
      rfl rfl rfl⟩

/-- Claim C5, counterexample. The claim quantifies over every event on the
web-app charm: but a non-leader unit with both ingress relations present ends
the event `Waiting("Waiting for leadership")`, not `Blocked(...)`, and an
install event with both relations present performs the resource apply and
ends in `MaintenanceStatus`, since `_on_install` never runs the exclusivity
check. -/
theorem c5_counterexample :
    (TensorboardsWebApp.on_event wBothNonLeader).status.isBlocked = false ∧
    (TensorboardsWebApp.on_event wBothNonLeader).status =
      .waiting "Waiting for leadership" ∧
    (TensorboardsWebApp.on_install wBothLeader).actions = [.applyK8s] ∧
    (TensorboardsWebApp.on_install wBothLeader).status.isBlocked = false := by
  refine ⟨rfl, rfl, rfl, rfl⟩

/-- Claim C5, amended: for every event handled by the web app `_on_event`
(upgrade, config-changed, leader-elected, ingress relation-changed,
pebble-ready) on a leader unit, if both mutually exclusive ingress relations
are present the status is `Blocked` with the conflicting-relations message
and no mutation at all happens (no resource apply, no layer update); the
install handler does not run this check, and a non-leader ends in
`Waiting("Waiting for leadership")` instead. -/
theorem c5_conflicting_relations (w : TensorboardsWebApp.WebAppWorld)
    (h1 : w.leader = true) (h2 : w.ambientRelation = true)
    (h3 : w.sidecarRelation = true) :
    TensorboardsWebApp.on_event w =
      { status := .blocked TensorboardsWebApp.bothRelationsMsg,
        actions := [] } := by
  simp [TensorboardsWebApp.on_event, TensorboardsWebApp.check_leader, h1,
    TensorboardsWebApp.check_istio_relations, h2, h3]

/-- Claim C5, witness: the amended behaviour at the concrete
leader-with-both-relations world. -/
theorem c5_witness :
    TensorboardsWebApp.on_event wBothLeader =
      { status := .blocked TensorboardsWebApp.bothRelationsMsg,
        actions := [] } :=
  c5_conflicting_relations wBothLeader rfl rfl rfl

/-- Claim C6: with a leader unit, a successful image fetch and gateway data
`{gateway_namespace: "kubeflow", gateway_name: "kubeflow-gateway"}`, the
controller `main` sets a pod spec whose environment contains
`ISTIO_GATEWAY = "kubeflow/kubeflow-gateway"` (namespace and name joined by
`/`), `service_environment` computes the same environment, and the final unit
status of the event is `ActiveStatus()`. -/
theorem c6_scenario_b (cw : Controller.ControllerWorld) (st0 : OpsStatus)
    (d : String) (h1 : cw.leader = true) (h2 : cw.imageFetch = .ok d)
    (h3 : cw.gatewayData =
      some { gatewayNamespace := "kubeflow", gatewayName := "kubeflow-gateway" }) :
    Controller.main cw st0 =
      { status := .active "", uncaught := none,
        actions :=
          [ .setPodSpec
              [ ("ISTIO_GATEWAY", "kubeflow/kubeflow-gateway"),
                ("TENSORBOARD_IMAGE", "tensorflow/tensorflow:2.1.0") ]
              cw.port ] } ∧
    Controller.service_environment cw =
      .ok [ ("ISTIO_GATEWAY", "kubeflow/kubeflow-gateway"),
            ("TENSORBOARD_IMAGE", "tensorflow/tensorflow:2.1.0") ] := by
  constructor
  · simp [Controller.main, Controller.check_leader, h1, h2, h3]
  · simp [Controller.service_environment, Controller.get_gateway_data, h3]

/-- Claim C6, witness: scenario B at the concrete world. -/
theorem c6_witness :
    Controller.main cwScenarioB (.maintenance "") =
      { status := .active "", uncaught := none,
        actions :=
          [ .setPodSpec
              [ ("ISTIO_GATEWAY", "kubeflow/kubeflow-gateway"),
                ("TENSORBOARD_IMAGE", "tensorflow/tensorflow:2.1.0") ]
              cwScenarioB.port ] } ∧
    Controller.service_environment cwScenarioB =
      .ok [ ("ISTIO_GATEWAY", "kubeflow/kubeflow-gateway"),
            ("TENSORBOARD_IMAGE", "tensorflow/tensorflow:2.1.0") ] :=
  c6_scenario_b cwScenarioB (.maintenance "") "registry/image" rfl rfl rfl

/-- Claim C7: the remove handler is idempotent with respect to never-applied
resources: a successful delete and a delete answered with HTTP 404 both
finish without raising and without an error log, while any other `ApiError`
code is logged at error severity and re-raised as
`GenericCharmRuntimeError`. -/
theorem c7_idempotent_delete (w : TensorboardsWebApp.WebAppWorld) :
    (w.deleteResult = none →
      TensorboardsWebApp.on_remove w =
        { status := .maintenance "Removing K8S resources",
          actions := [.deleteK8s], errorLogs := [], raised := none }) ∧
    (∀ e : ApiError, w.deleteResult = some e → e.code = 404 →
      TensorboardsWebApp.on_remove w =
        { status := .maintenance "Removing K8S resources",
          actions := [.deleteK8s], errorLogs := [], raised := none }) ∧
    (∀ e : ApiError, w.deleteResult = some e → e.code ≠ 404 →
      (TensorboardsWebApp.on_remove w).raised =
          some (.generic "Removing K8s resources failed") ∧
        (TensorboardsWebApp.on_remove w).errorLogs ≠ []) := by
  refine ⟨?_, ?_, ?_⟩
  · intro h
    simp [TensorboardsWebApp.on_remove, h]
  · intro e he h404
    simp [TensorboardsWebApp.on_remove, he, h404]
  · intro e he hne
    simp [TensorboardsWebApp.on_remove, he, hne]

/-- Claim C7, witness: deleting resources that were never applied (the
cluster answers 404) succeeds without raising or logging an error. -/
theorem c7_witness :
    TensorboardsWebApp.on_remove wDelete404 =
      { status := .maintenance "Removing K8S resources",
        actions := [.deleteK8s], errorLogs := [], raised := none } :=
  (c7_idempotent_delete wDelete404).2.1 { code := 404 } rfl rfl

/-- Claim C8, counterexample. The claim states the health check of the pushed layer
check carries a timeout and a failure threshold. The layer dictionary built
by `_tensorboards_web_app_layer` contains no `timeout` and no `threshold` key
in any check. -/
theorem c8_counterexample :
    ¬ ∃ p ∈ (TensorboardsWebApp.tensorboards_web_app_layer
        { secureCookies := false, backendMode := "kubeflow" }).checks,
      p.2.timeout.isSome ∧ p.2.threshold.isSome := by
  decide

/-- Claim C8, amended: for every configuration, the pushed layer contains
exactly one health check, named `tensorboards-web-app-up`, probing the
workload over HTTP at `http://localhost:5000` with a fixed period of 30
seconds, and the service is configured to restart when that named check
fails; no explicit timeout or failure threshold is set in the layer — those
are left to the supervisor defaults. -/
theorem c8_layer_health_check (c : TensorboardsWebApp.WebAppConfig) :
    (TensorboardsWebApp.tensorboards_web_app_layer c).checks =
      [ ("tensorboards-web-app-up",
          { override := "replace", period := some "30s", timeout := none,
            threshold := none,
            http := { url := "http://localhost:5000" } }) ] ∧
    (TensorboardsWebApp.tensorboards_web_app_layer c).services.map
        (fun s => s.2.onCheckFailure) =
      [[("tensorboards-web-app-up", "restart")]] := by
  constructor <;> rfl

/-- Claim C8, witness: the amended layer facts at a concrete configuration. -/
theorem c8_witness :
    (TensorboardsWebApp.tensorboards_web_app_layer
        { secureCookies := true, backendMode := "production" }).checks =
      [ ("tensorboards-web-app-up",
          { override := "replace", period := some "30s", timeout := none,
            threshold := none,
            http := { url := "http://localhost:5000" } }) ] ∧
    (TensorboardsWebApp.tensorboards_web_app_layer
        { secureCookies := true, backendMode := "production" }).services.map
        (fun s => s.2.onCheckFailure) =
      [[("tensorboards-web-app-up", "restart")]] :=
  c8_layer_health_check { secureCookies := true, backendMode := "production" }

/-- Claim C9: `_log_and_set_status` first assigns the status unconditionally;
`ActiveStatus`, `MaintenanceStatus` and `WaitingStatus` are then logged at
info severity, `BlockedStatus` at warning severity, and any other status type
hits a missing key in the dispatch dictionary (`KeyError`) after the status
was already set, so the status change is not rolled back. -/
theorem c9_log_and_set_status (s : OpsStatus) :
    (TensorboardsWebApp.log_and_set_status s).setStatus = s ∧
    (∀ m : String, s = .active m →
      TensorboardsWebApp.log_and_set_status s =
        { setStatus := s, logged := some (.info, m), keyError := false }) ∧
    (∀ m : String, s = .maintenance m →
      TensorboardsWebApp.log_and_set_status s =
        { setStatus := s, logged := some (.info, m), keyError := false }) ∧
    (∀ m : String, s = .waiting m →
      TensorboardsWebApp.log_and_set_status s =
        { setStatus := s, logged := some (.info, m), keyError := false }) ∧
    (∀ m : String, s = .blocked m →
      TensorboardsWebApp.log_and_set_status s =
        { setStatus := s, logged := some (.warning, m), keyError := false }) ∧
    (∀ m : String, s = .error m →
      TensorboardsWebApp.log_and_set_status s =
        { setStatus := s, logged := none, keyError := true }) := by
  cases s <;>
    simp [TensorboardsWebApp.log_and_set_status,
      TensorboardsWebApp.log_destination_map, OpsStatus.message]

/-- Claim C9, witness: a status outside the four dispatched types raises
`KeyError` with the status already set. -/
theorem c9_witness :
    (TensorboardsWebApp.log_and_set_status (.error "unexpected")).setStatus =
      .error "unexpected" ∧
    TensorboardsWebApp.log_and_set_status (.error "unexpected") =
      { setStatus := .error "unexpected", logged := none, keyError := true } :=
  ⟨(c9_log_and_set_status (.error "unexpected")).1,
    (c9_log_and_set_status (.error "unexpected")).2.2.2.2.2 "unexpected" rfl⟩

/-- Claim C10: in the legacy charm, a non-leader `__init__` sets
`WaitingStatus("Waiting for leadership")` and returns before registering any
observer, so for every event subsequently dispatched in that process no
handler runs and no pod spec or relation data is written — even in a later
world where leadership has been acquired. -/
theorem c10_legacy_nonleader_init (w : Legacy.LegacyWorld)
    (h : w.leader = false) :
    Legacy.legacy_init w =
      { status := .waiting "Waiting for leadership", observers := [] } ∧
    (∀ (w2 : Legacy.LegacyWorld) (e : Legacy.LegacyEvent),
      Legacy.dispatched_handlers (Legacy.legacy_init w) e = [] ∧
      Legacy.dispatch_actions (Legacy.legacy_init w) w2 e = []) := by
  have hinit : Legacy.legacy_init w =
      { status := .waiting "Waiting for leadership", observers := [] } := by
    simp [Legacy.legacy_init, h]
  refine ⟨hinit, ?_⟩
  intro w2 e
  simp [Legacy.dispatch_actions, Legacy.dispatched_handlers, hinit]

/-- Claim C10, witness: a non-leader construction followed by an install
event dispatched after leadership was acquired performs nothing. -/
theorem c10_witness :
    Legacy.legacy_init lwNonLeader =
      { status := .waiting "Waiting for leadership", observers := [] } ∧
    Legacy.dispatched_handlers (Legacy.legacy_init lwNonLeader) .install = [] ∧
    Legacy.dispatch_actions (Legacy.legacy_init lwNonLeader) lwLaterLeader
      .install = [] :=
  ⟨(c10_legacy_nonleader_init lwNonLeader rfl).1,
    ((c10_legacy_nonleader_init lwNonLeader rfl).2 lwLaterLeader .install).1,
    ((c10_legacy_nonleader_init lwNonLeader rfl).2 lwLaterLeader .install).2⟩
